import Mathlib

/-!
# Verification of the Infinigen scene-setup tool (`tool_scripts/fix_scene.py`)

A shallow embedding of the one-shot scene-setup script: the scene graph is a
finite tree of prims; each prim carries a name, a schema type, optional
transform attributes, a visibility attribute, and physics capability state
(USD applied-API schemas are modelled by application counts, so that duplicate
application is representable; attribute writes are modelled by `Option` fields).

The script's own logic (`modify_environment`, `add_colliders`,
`capture_transforms`, `verify_positions_unchanged`, `transforms_are_equal`,
the `__main__` control flow) is translated from the source.  The helpers
it imports from `infinigen_sdg_utils` (`find_matching_prims`,
`hide_matching_prims`, `add_rigid_body_dynamics`, `load_env`) are not part of
the staged sources; they are modelled from the specification's description of
them, and are marked `Modelled from the spec:` below.
-/

/-- Rational 3-vector standing in for `Gf.Vec3d` attribute values
(translate / rotateXYZ / scale). -/
structure Vec3 where
  x : ℚ
  y : ℚ
  z : ℚ
deriving DecidableEq, Repr

/-- Rational quaternion standing in for `Gf.Quat` values of `xformOp:orient`. -/
structure Quat4 where
  w : ℚ
  x : ℚ
  y : ℚ
  z : ℚ
deriving DecidableEq, Repr

/-- The schema type of a prim, as tested by `prim.IsA(...)`.
`UsdGeom.Mesh` is a `UsdGeom.Gprim`, so `IsA(Gprim)` holds for `Mesh` and for
`NonMeshGprim` (spheres, cubes, ...); `Xform` is a transform-only group;
`Scope` stands for any other prim type. -/
inductive PrimType where
  | Mesh : PrimType
  | NonMeshGprim : PrimType
  | Xform : PrimType
  | Scope : PrimType
deriving DecidableEq, Repr

/-- `prim.IsA(UsdGeom.Mesh)` -/
def isMesh : PrimType → Bool
  | PrimType.Mesh => true
  | _ => false

/-- `prim.IsA(UsdGeom.Gprim)` -/
def isGprim : PrimType → Bool
  | PrimType.Mesh => true
  | PrimType.NonMeshGprim => true
  | _ => false

/-- Python's `sub in s` substring test on strings. -/
def strContains (s sub : String) : Bool :=
  (List.range (s.data.length + 1)).any
    (fun i => ((s.data.drop i).take sub.data.length) == sub.data)

/-- `any(marker in name for marker in markers)` -/
def matchesAny (markers : List String) (name : String) : Bool :=
  markers.any (fun m => strContains name m)

/-- `fine_collider_types = ["skirt", "_wall", "_floor"]` -/
def fine_collider_types : List String := ["skirt", "_wall", "_floor"]

/-- `rigid_body_types = ["Table", "Chair", "Rug"]` -/
def rigid_body_types : List String := ["Table", "Chair", "Rug"]

/-- The per-prim state the script reads or writes.  USD applied-API schemas
(`UsdPhysics.CollisionAPI`, `UsdPhysics.MeshCollisionAPI`,
`PhysxSchema.PhysxTriangleMeshCollisionAPI`, rigid-body dynamics) are counted,
so `HasAPI` is `0 < count` and `Apply` increments; attributes are `Option`
values. -/
structure PrimData where
  name : String
  ty : PrimType
  translate : Option Vec3
  rotateXYZ : Option Vec3
  scale : Option Vec3
  orient : Option Quat4
  visibility : String
  collisionAPICount : Nat
  collisionEnabled : Option Bool
  meshCollisionAPICount : Nat
  approximation : Option String
  physxTriMeshAPICount : Nat
  rigidBodyAPICount : Nat
deriving DecidableEq, Repr

/-- `if not prim.HasAPI(S): S.Apply(prim)` — the guarded schema application the
script performs: apply only when absent. -/
def applyAPI (c : Nat) : Nat := if c == 0 then 1 else c

/-- The `UsdGeom.Gprim` half of the `add_colliders` loop body:
guarded `UsdPhysics.CollisionAPI.Apply` followed by
`CreateCollisionEnabledAttr(True)` (lines 209-214). -/
def gprimStep (d : PrimData) : PrimData :=
  if isGprim d.ty then
    { d with collisionAPICount := applyAPI d.collisionAPICount,
             collisionEnabled := some true }
  else d

/-- The `UsdGeom.Mesh` half of the `add_colliders` loop body (lines 216-227):
for `"triangleMesh"` a guarded `PhysxTriangleMeshCollisionAPI.Apply`; otherwise
a guarded `MeshCollisionAPI` application and
`CreateApproximationAttr().Set(approximation_type)`. -/
def meshStep (approximation_type : String) (d : PrimData) : PrimData :=
  if isMesh d.ty then
    if approximation_type == "triangleMesh" then
      { d with physxTriMeshAPICount := applyAPI d.physxTriMeshAPICount }
    else
      { d with meshCollisionAPICount := applyAPI d.meshCollisionAPICount,
               approximation := some approximation_type }
  else d

/-- One visit of the `add_colliders` loop body at a single prim: the Gprim
branch, then the Mesh branch, on the same prim. -/
def colliderStep (approximation_type : String) (d : PrimData) : PrimData :=
  meshStep approximation_type (gprimStep d)

/-- Modelled from the spec: `infinigen_utils.add_rigid_body_dynamics(prim)`
(rigid-body attacher, not in the staged sources).  Per the spec, capability
markers are idempotent-additive: checking for the existing capability before
attaching avoids duplicate attachment. -/
def rigidStep (d : PrimData) : PrimData :=
  { d with rigidBodyAPICount := applyAPI d.rigidBodyAPICount }

/-- An optional prim-type filter, as in
`find_matching_prims(markers, root, "Xform")`. -/
def tyFilterOk : Option PrimType → PrimType → Bool
  | none, _ => true
  | some t, t2 => t == t2

/-- Modelled from the spec: the per-prim effect of
`hide_matching_prims(markers, root, kind_filter)` / the explicit
`find_matching_prims` + `GetAttribute("visibility").Set("invisible")` loop:
a node whose name contains one of the markers (and passes the kind filter)
has its visibility attribute set to the invisible value; nothing is removed. -/
def hideStep (markers : List String) (filt : Option PrimType) (d : PrimData) : PrimData :=
  if matchesAny markers d.name && tyFilterOk filt d.ty then
    { d with visibility := "invisible" }
  else d

/-- Approximation resolution of the `modify_environment` mesh loop
(lines 259-264): a name containing a fine-collider marker forces
`"triangleMesh"`, otherwise the caller-supplied coarse type is used. -/
def resolveApprox (coarse_approximation_type : String) (name : String) : String :=
  if matchesAny fine_collider_types name then "triangleMesh"
  else coarse_approximation_type

/-- The net effect on one prim of the `add_colliders` calls made for its
*enclosing* mesh prims (each such call maps `colliderStep A` over the whole
subtree of that mesh, `A = resolveApprox coarse name`, so `A` is either
`"triangleMesh"` or the coarse type).  Because every non-triangle call carries
the same value `coarse_approximation_type`, and applications are guarded, the
net deferred effect is determined by which of the two kinds of call is
pending: `pendTri` (some enclosing mesh resolved to `"triangleMesh"`) and
`pendCoarse` (some enclosing mesh resolved to the coarse type). -/
def applyPend (coarse_approximation_type : String) (pendTri pendCoarse : Bool)
    (d : PrimData) : PrimData :=
  let d1 := if pendTri then colliderStep "triangleMesh" d else d
  if pendCoarse then colliderStep coarse_approximation_type d1 else d1

/-- The complete effect of the `modify_environment` collider loop
(lines 255-272) on one prim's data: first the pending `colliderStep`s of the
enclosing meshes (they ran earlier in the preorder `Usd.PrimRange` walk),
then — when the prim is itself a mesh — its own `add_colliders` call at the
resolved approximation, then `add_rigid_body_dynamics` when its name contains
a rigid-body marker. -/
def ownVisit (coarse_approximation_type : String) (pendTri pendCoarse : Bool)
    (d : PrimData) : PrimData :=
  let d0 := applyPend coarse_approximation_type pendTri pendCoarse d
  if isMesh d0.ty then
    let d1 := colliderStep (resolveApprox coarse_approximation_type d0.name) d0
    if matchesAny rigid_body_types d0.name then rigidStep d1 else d1
  else d0

/-- How the pending-collider flags grow when the walk descends past a prim:
a mesh prim adds its own resolved approximation to what is pending for its
descendants. -/
def pendAfter (coarse_approximation_type : String) (pendTri pendCoarse : Bool)
    (d : PrimData) : Bool × Bool :=
  if isMesh d.ty then
    (pendTri || (resolveApprox coarse_approximation_type d.name == "triangleMesh"),
     pendCoarse || !(resolveApprox coarse_approximation_type d.name == "triangleMesh"))
  else (pendTri, pendCoarse)

mutual
/-- A USD prim: its data and its ordered children (`Usd.PrimRange` visits a
prim before its children). -/
inductive Prim where
  | mk : PrimData → PrimList → Prim
/-- The ordered children of a prim. -/
inductive PrimList where
  | nil : PrimList
  | cons : Prim → PrimList → PrimList
end

/-- The data carried at the root of a prim subtree. -/
def Prim.data : Prim → PrimData
  | .mk d _ => d

/-- The children of a prim. -/
def Prim.children : Prim → PrimList
  | .mk _ cs => cs

/-- The `i`-th child. -/
def getChild : PrimList → Nat → Option Prim
  | .nil, _ => none
  | .cons c _, 0 => some c
  | .cons _ cs, n + 1 => getChild cs n

/-- `stage.GetPrimAtPath`: a prim is addressed by the list of child indices
from the root (index paths are unique per prim, like USD path strings). -/
def getPrim : Prim → List Nat → Option Prim
  | p, [] => some p
  | .mk _ cs, i :: q =>
    match getChild cs i with
    | some c => getPrim c q
    | none => none

/-- The prim data found at a path. -/
def getAt (p : Prim) (q : List Nat) : Option PrimData :=
  (getPrim p q).map Prim.data

mutual
/-- Modelled from the spec: `hide_matching_prims(markers, root, kind_filter)`
and the explicit visibility loop over `find_matching_prims` — every prim in
the subtree that matches gets its visibility set to invisible. -/
def hide_matching_prims (markers : List String) (filt : Option PrimType) :
    Prim → Prim
  | .mk d cs => .mk (hideStep markers filt d) (hide_matching_primsList markers filt cs)
/-- `hide_matching_prims` over a list of subtrees. -/
def hide_matching_primsList (markers : List String) (filt : Option PrimType) :
    PrimList → PrimList
  | .nil => .nil
  | .cons c cs =>
      .cons (hide_matching_prims markers filt c) (hide_matching_primsList markers filt cs)
end

mutual
/-- `add_colliders(root_prim, approximation_type)` (lines 206-227): applies the
collider loop body to every prim of the subtree (`Usd.PrimRange(root_prim)`). -/
def add_colliders (approximation_type : String) : Prim → Prim
  | .mk d cs => .mk (colliderStep approximation_type d) (add_collidersList approximation_type cs)
/-- `add_colliders` over a list of subtrees. -/
def add_collidersList (approximation_type : String) : PrimList → PrimList
  | .nil => .nil
  | .cons c cs =>
      .cons (add_colliders approximation_type c) (add_collidersList approximation_type cs)
end

mutual
/-- The collider/rigid-body loop of `modify_environment` (lines 255-272).  The
live loop walks `Usd.PrimRange` in preorder and, at each mesh prim, runs
`add_colliders` over that prim's whole (already partially mutated) subtree and
then possibly `add_rigid_body_dynamics`.  Since no step changes a name, a
type or the tree shape, the walk is equivalently expressed by visiting each
prim once and applying, at that prim, the `colliderStep`s its enclosing
meshes contributed (`applyPend`) followed by its own loop body (`ownVisit`);
the pending flags grow via `pendAfter` as the walk descends. -/
def modifyMeshPass (coarse_approximation_type : String) (pendTri pendCoarse : Bool) :
    Prim → Prim
  | .mk d cs =>
      .mk (ownVisit coarse_approximation_type pendTri pendCoarse d)
        (modifyMeshPassList coarse_approximation_type
          (pendAfter coarse_approximation_type pendTri pendCoarse d).1
          (pendAfter coarse_approximation_type pendTri pendCoarse d).2 cs)
/-- `modifyMeshPass` over a list of subtrees. -/
def modifyMeshPassList (coarse_approximation_type : String) (pendTri pendCoarse : Bool) :
    PrimList → PrimList
  | .nil => .nil
  | .cons c cs =>
      .cons (modifyMeshPass coarse_approximation_type pendTri pendCoarse c)
        (modifyMeshPassList coarse_approximation_type pendTri pendCoarse cs)
end

/-- `modify_environment(root_path, coarse_approximation_type, hide_top_walls)`
(lines 229-272), acting on the subtree at `root_path`:
1. the explicit visibility loop over
   `find_matching_prims(["001_SPLIT_GLA"], root_path, "Xform")`;
2. `hide_matching_prims(["001_SPLIT_GLA"], root_path, "Xform")`;
3. if `hide_top_walls`: `hide_matching_prims(["_exterior", "_ceiling"], root_path)`;
4. the preorder mesh loop adding colliders and rigid-body dynamics. -/
def modify_environment (coarse_approximation_type : String) (hide_top_walls : Bool)
    (env : Prim) : Prim :=
  let e1 := hide_matching_prims ["001_SPLIT_GLA"] (some PrimType.Xform) env
  let e2 := hide_matching_prims ["001_SPLIT_GLA"] (some PrimType.Xform) e1
  let e3 := if hide_top_walls then hide_matching_prims ["_exterior", "_ceiling"] none e2
            else e2
  modifyMeshPass coarse_approximation_type false false e3

/-- The pending-collider flags accumulated along the path from the root of the
walked subtree down to (but not including) the addressed prim. -/
def pendAlong (coarse_approximation_type : String) (pendTri pendCoarse : Bool) :
    Prim → List Nat → Bool × Bool
  | _, [] => (pendTri, pendCoarse)
  | .mk d cs, i :: q =>
      match getChild cs i with
      | some c =>
          pendAlong coarse_approximation_type
            (pendAfter coarse_approximation_type pendTri pendCoarse d).1
            (pendAfter coarse_approximation_type pendTri pendCoarse d).2 c q
      | none => (pendTri, pendCoarse)

/-- Whether some prim strictly above the addressed prim (on the path from the
walked root, the root included) is a mesh whose name contains a fine-collider
marker. -/
def ancestorHasFineMesh : Prim → List Nat → Bool
  | _, [] => false
  | .mk d cs, i :: q =>
      match getChild cs i with
      | some c =>
          (isMesh d.ty && matchesAny fine_collider_types d.name) ||
            ancestorHasFineMesh c q
      | none => false

/-- The per-prim effect of one whole `modify_environment` call: the two
lighting-fix hide passes, the optional wall/ceiling hide pass, then the
collider loop effect at the given pending flags. -/
def modifyEffect (coarse_approximation_type : String) (hide_top_walls : Bool)
    (pendTri pendCoarse : Bool) (d : PrimData) : PrimData :=
  ownVisit coarse_approximation_type pendTri pendCoarse
    ((if hide_top_walls then hideStep ["_exterior", "_ceiling"] none else id)
      (hideStep ["001_SPLIT_GLA"] (some PrimType.Xform)
        (hideStep ["001_SPLIT_GLA"] (some PrimType.Xform) d)))

/-- The record `capture_transforms` builds for a prim with a
`xformOp:translate` attribute (lines 105-111): translate, plus the optional
rotation / scale / orient values. -/
structure TransformData where
  translate : Vec3
  rotation : Option Vec3
  scale : Option Vec3
  orient : Option Quat4
deriving DecidableEq, Repr

mutual
/-- The `Usd.PrimRange` walk of `capture_transforms` (lines 104-112): every
prim with a translate attribute contributes one record keyed by its path;
prims without one are omitted entirely. -/
def captureWalk (path : List Nat) : Prim → List (List Nat × TransformData)
  | .mk d cs =>
      (match d.translate with
       | some t => [(path, ⟨t, d.rotateXYZ, d.scale, d.orient⟩)]
       | none => []) ++ captureWalkList path 0 cs
/-- `captureWalk` over the children, numbering them from `i`. -/
def captureWalkList (path : List Nat) (i : Nat) :
    PrimList → List (List Nat × TransformData)
  | .nil => []
  | .cons c cs => captureWalk (path ++ [i]) c ++ captureWalkList path (i + 1) cs
end

/-- `capture_transforms(stage, root_path)` (lines 86-114): empty when no valid
prim exists at the root path, else the records of the subtree's prims. -/
def capture_transforms (stage : Prim) (root_path : List Nat) :
    List (List Nat × TransformData) :=
  match getPrim stage root_path with
  | none => []
  | some r => captureWalk root_path r

/-- Dictionary lookup `after_transforms[prim_path]` preceded by the
`prim_path in after_transforms` test. -/
def lookupTD (m : List (List Nat × TransformData)) (k : List Nat) :
    Option TransformData :=
  match m with
  | [] => none
  | kv :: rest => if kv.1 = k then some kv.2 else lookupTD rest k

/-- `transforms_are_equal(transform1, transform2, tolerance)` (lines 73-84) at
its only call type: the arguments are the per-prim record dicts built by
`capture_transforms`, never `None`.  A Python dict has no `__sub__`, so
`hasattr(transform1, '__sub__')` is false and the conditional expression
`abs(transform1 - transform2) < tolerance if hasattr(transform1, '__sub__')
else transform1 == transform2` always takes the exact-equality branch: the
`tolerance` parameter is dead at this call type. -/
def transforms_are_equal (transform1 transform2 : TransformData) (tolerance : ℚ) : Bool :=
  decide (transform1 = transform2)

/-- The counting loop of `verify_positions_unchanged` (lines 53-64): the pair
`(changes_detected, total_checked)`, walking the `before` records and
comparing, with tolerance `1e-6`, each one whose path is also in `after`. -/
def verifyCounts (before after : List (List Nat × TransformData)) : Nat × Nat :=
  before.foldl
    (fun acc kv =>
      match lookupTD after kv.1 with
      | some a =>
          (if transforms_are_equal kv.2 a (1 / 1000000) then acc.1 else acc.1 + 1,
           acc.2 + 1)
      | none => acc)
    (0, 0)

/-- `verify_positions_unchanged(stage, before, after)` (lines 44-71): true iff
zero changes were detected. -/
def verify_positions_unchanged (before after : List (List Nat × TransformData)) : Bool :=
  (verifyCounts before after).1 == 0

/-- The observable steps of one process run, in program order. -/
inductive Event where
  | parseArgs : Event
  | launchSimApp : Event
  | printUsingPath : Event
  | fileCheckFailed : Event
  | newStage : Event
  | loadEnvCall : Event
  | logLoadError : Event
  | logLoadSuccess : Event
  | setDefaultPrimStep : Event
  | appUpdate : Event
  | captureInitial : Event
  | modifyEnvStep : Event
  | captureFinal : Event
  | verifyRun : Bool → Event
  | printSetupComplete : Event
  | resolveScaleStep : Event
  | printAllComplete : Event
  | viewerLoopEntered : Event
  | exitProcess : Nat → Event
deriving DecidableEq, Repr

/-- The steps of `setup_infinigen_scene` (lines 116-181), in order:
new stage; the `load_env` attempt, whose failure is caught and logged
(`loadFails` says whether the engine call raises); default-prim setup; app
update; initial snapshot; `modify_environment`; final snapshot;
`verify_positions_unchanged` (its boolean result `verifyOutcome` is bound to
`position_preserved` and never read); the "setup complete" print; the
metrics-assembler scale fixup; the final print. -/
def setup_infinigen_scene_trace (loadFails verifyOutcome : Bool) : List Event :=
  [Event.newStage] ++
    (if loadFails then [Event.loadEnvCall, Event.logLoadError]
     else [Event.loadEnvCall, Event.logLoadSuccess]) ++
    [Event.setDefaultPrimStep, Event.appUpdate, Event.captureInitial,
     Event.modifyEnvStep, Event.captureFinal, Event.verifyRun verifyOutcome,
     Event.printSetupComplete, Event.resolveScaleStep, Event.printAllComplete]

/-- The part of `setup_infinigen_scene` that precedes the verification step. -/
def setupPrefixTrace (loadFails : Bool) : List Event :=
  [Event.newStage] ++
    (if loadFails then [Event.loadEnvCall, Event.logLoadError]
     else [Event.loadEnvCall, Event.logLoadSuccess]) ++
    [Event.setDefaultPrimStep, Event.appUpdate, Event.captureInitial,
     Event.modifyEnvStep, Event.captureFinal]

/-- The whole process run (module body then `__main__`, lines 9-311):
argument parsing (line 24), the `SimulationApp` engine launch (line 27,
at import time), the path print, then the `os.path.exists` check — a missing
file exits with status 1 (lines 282-285); otherwise setup runs and the viewer
loop is entered. -/
def script_trace (fileExists loadFails verifyOutcome : Bool) : List Event :=
  [Event.parseArgs, Event.launchSimApp, Event.printUsingPath] ++
    (if fileExists then
        setup_infinigen_scene_trace loadFails verifyOutcome ++ [Event.viewerLoopEntered]
     else [Event.fileCheckFailed, Event.exitProcess 1])

/-- Whether an event is a process exit. -/
def isExitEvent : Event → Bool
  | Event.exitProcess _ => true
  | _ => false

/-- The events that happen strictly before the first process exit. -/
def eventsBeforeExit (t : List Event) : List Event :=
  t.takeWhile (fun e => !(isExitEvent e))

/-- A fresh prim record: no transform attributes, inherited visibility, no
physics capabilities. -/
def basePrimData (name : String) (ty : PrimType) : PrimData :=
  ⟨name, ty, none, none, none, none, "inherited", 0, none, 0, none, 0, 0⟩

/-- A movable chair mesh with transform attributes, for concrete checks. -/
def chairData : PrimData :=
  { basePrimData "Chair_0" PrimType.Mesh with
      translate := some ⟨1, 2, 3⟩, rotateXYZ := some ⟨0, 0, 90⟩,
      scale := some ⟨1, 1, 1⟩ }

/-- An environment with one chair mesh. -/
def envTreeA : Prim :=
  .mk (basePrimData "Environment" PrimType.Xform) (.cons (.mk chairData .nil) .nil)

/-- An environment with one fine-collider (skirting) mesh. -/
def envTreeB : Prim :=
  .mk (basePrimData "Environment" PrimType.Xform)
    (.cons (.mk (basePrimData "skirt_12" PrimType.Mesh) .nil) .nil)

/-- A fine-collider mesh whose subtree contains a plain mesh: the inner mesh
has no fine-collider marker, yet lies under a mesh whose name has one. -/
def nestedFineTree : Prim :=
  .mk (basePrimData "skirt_box" PrimType.Mesh)
    (.cons (.mk (basePrimData "cube_A" PrimType.Mesh) .nil) .nil)

/-- An environment with one plain mesh, not nested under any fine mesh. -/
def envTreeC : Prim :=
  .mk (basePrimData "Environment" PrimType.Xform)
    (.cons (.mk (basePrimData "cube_B" PrimType.Mesh) .nil) .nil)

/-- A mesh (not an Xform) whose name contains the lighting-obstruction
marker `001_SPLIT_GLA`. -/
def lightMeshTree : Prim :=
  .mk (basePrimData "001_SPLIT_GLA_m" PrimType.Mesh) .nil

/-- An environment with one exterior-wall group node. -/
def exteriorTree : Prim :=
  .mk (basePrimData "Environment" PrimType.Xform)
    (.cons (.mk (basePrimData "north_exterior" PrimType.Xform) .nil) .nil)

/-- A one-prim stage, used with a root path that addresses nothing. -/
def leafStage : Prim := .mk (basePrimData "World" PrimType.Scope) .nil

/-- A snapshot record with translate `(0, 0, 0)`. -/
def tdBefore : TransformData := ⟨⟨0, 0, 0⟩, none, none, none⟩

/-- A snapshot record whose translate differs from `tdBefore` by `5e-7`,
well inside the claimed `1e-6` tolerance. -/
def tdAfter : TransformData := ⟨⟨1 / 2000000, 0, 0⟩, none, none, none⟩

/-- A before-snapshot of one prim. -/
def snapBefore : List (List Nat × TransformData) := [([0], tdBefore)]

/-- An after-snapshot of the same prim, moved by `5e-7`. -/
def snapAfter : List (List Nat × TransformData) := [([0], tdAfter)]

/-! ## Pointwise lemmas about the per-prim step functions -/

theorem applyAPI_applyAPI (n : Nat) : applyAPI (applyAPI n) = applyAPI n := by
  cases n <;> rfl

theorem applyAPI_pos (n : Nat) : 0 < applyAPI n := by
  cases n with
  | zero => decide
  | succ m => simp [applyAPI]

/-- `gprimStep` as a field-update normal form. -/
theorem gprimStep_eq (d : PrimData) :
    gprimStep d =
      { d with
        collisionAPICount :=
          if isGprim d.ty then applyAPI d.collisionAPICount else d.collisionAPICount,
        collisionEnabled :=
          if isGprim d.ty then some true else d.collisionEnabled } := by
  unfold gprimStep
  split <;> simp_all

/-- `meshStep` as a field-update normal form. -/
theorem meshStep_eq (A : String) (d : PrimData) :
    meshStep A d =
      { d with
        meshCollisionAPICount :=
          if isMesh d.ty && !(A == "triangleMesh") then
            applyAPI d.meshCollisionAPICount
          else d.meshCollisionAPICount,
        approximation :=
          if isMesh d.ty && !(A == "triangleMesh") then some A else d.approximation,
        physxTriMeshAPICount :=
          if isMesh d.ty && (A == "triangleMesh") then
            applyAPI d.physxTriMeshAPICount
          else d.physxTriMeshAPICount } := by
  unfold meshStep
  rcases d with ⟨nm, ty, tr, ro, sc, orn, vis, c1, ce, c2, ap, c3, c4⟩
  by_cases hm : isMesh ty = true <;> by_cases hA : (A == "triangleMesh") = true <;>
    simp_all

/-- `hideStep` as a field-update normal form. -/
theorem hideStep_eq (M : List String) (F : Option PrimType) (d : PrimData) :
    hideStep M F d =
      { d with
        visibility :=
          if matchesAny M d.name && tyFilterOk F d.ty then "invisible"
          else d.visibility } := by
  unfold hideStep
  split <;> simp_all

/-- The collider-loop effect `ownVisit` as a field-update normal form:
collision enablement for any geometric primitive some enclosing (or this) mesh
collider call reaches; the precise PhysX marker for a mesh when a triangle-mesh
call is pending or its own call resolves to `"triangleMesh"`; the standard mesh
approximation otherwise. -/
theorem ownVisit_eq (c : String) (a b : Bool) (d : PrimData) :
    ownVisit c a b d =
      { d with
        collisionAPICount :=
          if isGprim d.ty && (a || b || isMesh d.ty) then
            applyAPI d.collisionAPICount
          else d.collisionAPICount,
        collisionEnabled :=
          if isGprim d.ty && (a || b || isMesh d.ty) then some true
          else d.collisionEnabled,
        meshCollisionAPICount :=
          if isMesh d.ty &&
              ((b && !(c == "triangleMesh")) ||
                !(resolveApprox c d.name == "triangleMesh")) then
            applyAPI d.meshCollisionAPICount
          else d.meshCollisionAPICount,
        approximation :=
          if isMesh d.ty &&
              ((b && !(c == "triangleMesh")) ||
                !(resolveApprox c d.name == "triangleMesh")) then some c
          else d.approximation,
        physxTriMeshAPICount :=
          if isMesh d.ty && (a || (resolveApprox c d.name == "triangleMesh")) then
            applyAPI d.physxTriMeshAPICount
          else d.physxTriMeshAPICount,
        rigidBodyAPICount :=
          if isMesh d.ty && matchesAny rigid_body_types d.name then
            applyAPI d.rigidBodyAPICount
          else d.rigidBodyAPICount } := by
  rcases d with ⟨nm, ty, tr, ro, sc, orn, vis, c1, ce, c2, ap, c3, c4⟩
  unfold ownVisit applyPend colliderStep meshStep gprimStep rigidStep resolveApprox
  cases ty <;> cases a <;> cases b <;>
    by_cases hF : matchesAny fine_collider_types nm = true <;>
    by_cases hK : (c == "triangleMesh") = true <;>
    by_cases hR : matchesAny rigid_body_types nm = true <;>
    simp_all [isMesh, isGprim, applyAPI_applyAPI]

theorem ownVisit_name (c : String) (a b : Bool) (d : PrimData) :
    (ownVisit c a b d).name = d.name := by rw [ownVisit_eq]

theorem ownVisit_ty (c : String) (a b : Bool) (d : PrimData) :
    (ownVisit c a b d).ty = d.ty := by rw [ownVisit_eq]

theorem ownVisit_translate (c : String) (a b : Bool) (d : PrimData) :
    (ownVisit c a b d).translate = d.translate := by rw [ownVisit_eq]

theorem ownVisit_rotateXYZ (c : String) (a b : Bool) (d : PrimData) :
    (ownVisit c a b d).rotateXYZ = d.rotateXYZ := by rw [ownVisit_eq]

theorem ownVisit_scale (c : String) (a b : Bool) (d : PrimData) :
    (ownVisit c a b d).scale = d.scale := by rw [ownVisit_eq]

theorem ownVisit_orient (c : String) (a b : Bool) (d : PrimData) :
    (ownVisit c a b d).orient = d.orient := by rw [ownVisit_eq]

theorem ownVisit_visibility (c : String) (a b : Bool) (d : PrimData) :
    (ownVisit c a b d).visibility = d.visibility := by rw [ownVisit_eq]

theorem hideStep_name (M : List String) (F : Option PrimType) (d : PrimData) :
    (hideStep M F d).name = d.name := by rw [hideStep_eq]

theorem hideStep_ty (M : List String) (F : Option PrimType) (d : PrimData) :
    (hideStep M F d).ty = d.ty := by rw [hideStep_eq]

theorem hideStep_translate (M : List String) (F : Option PrimType) (d : PrimData) :
    (hideStep M F d).translate = d.translate := by rw [hideStep_eq]

theorem hideStep_rotateXYZ (M : List String) (F : Option PrimType) (d : PrimData) :
    (hideStep M F d).rotateXYZ = d.rotateXYZ := by rw [hideStep_eq]

theorem hideStep_scale (M : List String) (F : Option PrimType) (d : PrimData) :
    (hideStep M F d).scale = d.scale := by rw [hideStep_eq]

theorem hideStep_orient (M : List String) (F : Option PrimType) (d : PrimData) :
    (hideStep M F d).orient = d.orient := by rw [hideStep_eq]

theorem hideStep_collisionAPICount (M : List String) (F : Option PrimType) (d : PrimData) :
    (hideStep M F d).collisionAPICount = d.collisionAPICount := by rw [hideStep_eq]

theorem hideStep_collisionEnabled (M : List String) (F : Option PrimType) (d : PrimData) :
    (hideStep M F d).collisionEnabled = d.collisionEnabled := by rw [hideStep_eq]

theorem hideStep_meshCollisionAPICount (M : List String) (F : Option PrimType) (d : PrimData) :
    (hideStep M F d).meshCollisionAPICount = d.meshCollisionAPICount := by rw [hideStep_eq]

theorem hideStep_approximation (M : List String) (F : Option PrimType) (d : PrimData) :
    (hideStep M F d).approximation = d.approximation := by rw [hideStep_eq]

theorem hideStep_physxTriMeshAPICount (M : List String) (F : Option PrimType) (d : PrimData) :
    (hideStep M F d).physxTriMeshAPICount = d.physxTriMeshAPICount := by rw [hideStep_eq]

theorem hideStep_rigidBodyAPICount (M : List String) (F : Option PrimType) (d : PrimData) :
    (hideStep M F d).rigidBodyAPICount = d.rigidBodyAPICount := by rw [hideStep_eq]

theorem hideStep_visibility (M : List String) (F : Option PrimType) (d : PrimData) :
    (hideStep M F d).visibility =
      (if matchesAny M d.name && tyFilterOk F d.ty then "invisible"
       else d.visibility) := by rw [hideStep_eq]

/-- One whole `modify_environment` call, per prim, as a field-update normal
form: the hide passes only write visibility, the collider loop only writes
capability state, and neither touches names, types or transform attributes. -/
theorem modifyEffect_eq (c : String) (h a b : Bool) (d : PrimData) :
    modifyEffect c h a b d =
      { d with
        visibility :=
          if h && matchesAny ["_exterior", "_ceiling"] d.name then "invisible"
          else if matchesAny ["001_SPLIT_GLA"] d.name &&
              tyFilterOk (some PrimType.Xform) d.ty then "invisible"
          else d.visibility,
        collisionAPICount :=
          if isGprim d.ty && (a || b || isMesh d.ty) then
            applyAPI d.collisionAPICount
          else d.collisionAPICount,
        collisionEnabled :=
          if isGprim d.ty && (a || b || isMesh d.ty) then some true
          else d.collisionEnabled,
        meshCollisionAPICount :=
          if isMesh d.ty &&
              ((b && !(c == "triangleMesh")) ||
                !(resolveApprox c d.name == "triangleMesh")) then
            applyAPI d.meshCollisionAPICount
          else d.meshCollisionAPICount,
        approximation :=
          if isMesh d.ty &&
              ((b && !(c == "triangleMesh")) ||
                !(resolveApprox c d.name == "triangleMesh")) then some c
          else d.approximation,
        physxTriMeshAPICount :=
          if isMesh d.ty && (a || (resolveApprox c d.name == "triangleMesh")) then
            applyAPI d.physxTriMeshAPICount
          else d.physxTriMeshAPICount,
        rigidBodyAPICount :=
          if isMesh d.ty && matchesAny rigid_body_types d.name then
            applyAPI d.rigidBodyAPICount
          else d.rigidBodyAPICount } := by
  unfold modifyEffect
  cases h with
  | false =>
      rw [hideStep_eq, hideStep_eq]
      rw [show ((if false = true then hideStep ["_exterior", "_ceiling"] none else id) :
            PrimData → PrimData) = id from by simp]
      rw [ownVisit_eq]
      by_cases hL :
          (matchesAny ["001_SPLIT_GLA"] d.name &&
            tyFilterOk (some PrimType.Xform) d.ty) = true <;>
        simp_all
  | true =>
      rw [hideStep_eq, hideStep_eq]
      rw [show ((if true = true then hideStep ["_exterior", "_ceiling"] none else id) :
            PrimData → PrimData) = hideStep ["_exterior", "_ceiling"] none from by simp]
      rw [hideStep_eq, ownVisit_eq]
      by_cases hL :
          (matchesAny ["001_SPLIT_GLA"] d.name &&
            tyFilterOk (some PrimType.Xform) d.ty) = true <;>
        by_cases hW : matchesAny ["_exterior", "_ceiling"] d.name = true <;>
        simp_all [tyFilterOk]

theorem modifyEffect_name (c : String) (h a b : Bool) (d : PrimData) :
    (modifyEffect c h a b d).name = d.name := by rw [modifyEffect_eq]

theorem modifyEffect_ty (c : String) (h a b : Bool) (d : PrimData) :
    (modifyEffect c h a b d).ty = d.ty := by rw [modifyEffect_eq]

theorem modifyEffect_translate (c : String) (h a b : Bool) (d : PrimData) :
    (modifyEffect c h a b d).translate = d.translate := by rw [modifyEffect_eq]

theorem modifyEffect_rotateXYZ (c : String) (h a b : Bool) (d : PrimData) :
    (modifyEffect c h a b d).rotateXYZ = d.rotateXYZ := by rw [modifyEffect_eq]

theorem modifyEffect_scale (c : String) (h a b : Bool) (d : PrimData) :
    (modifyEffect c h a b d).scale = d.scale := by rw [modifyEffect_eq]

theorem modifyEffect_orient (c : String) (h a b : Bool) (d : PrimData) :
    (modifyEffect c h a b d).orient = d.orient := by rw [modifyEffect_eq]

/-- Applying the per-prim effect of `modify_environment` twice, at the same
pending flags, is the same as applying it once. -/
theorem modifyEffect_idem (c : String) (h a b : Bool) (d : PrimData) :
    modifyEffect c h a b (modifyEffect c h a b d) = modifyEffect c h a b d := by
  rw [modifyEffect_eq c h a b d, modifyEffect_eq]
  rcases d with ⟨nm, ty, tr, ro, sc, orn, vis, c1, ce, c2, ap, c3, c4⟩
  simp only []
  split_ifs <;> simp_all [applyAPI_applyAPI]

/-! ## Path lemmas about the tree traversals -/

theorem getChild_hideList (M : List String) (F : Option PrimType) :
    ∀ (cs : PrimList) (i : Nat),
      getChild (hide_matching_primsList M F cs) i =
        (getChild cs i).map (hide_matching_prims M F)
  | .nil, _ => rfl
  | .cons _ _, 0 => rfl
  | .cons _ cs, i + 1 => getChild_hideList M F cs i

theorem getChild_mmpList (c : String) (a b : Bool) :
    ∀ (cs : PrimList) (i : Nat),
      getChild (modifyMeshPassList c a b cs) i =
        (getChild cs i).map (modifyMeshPass c a b)
  | .nil, _ => rfl
  | .cons _ _, 0 => rfl
  | .cons _ cs, i + 1 => getChild_mmpList c a b cs i

theorem getAt_hide (M : List String) (F : Option PrimType) (q : List Nat) :
    ∀ p : Prim,
      getAt (hide_matching_prims M F p) q = (getAt p q).map (hideStep M F) := by
  induction q with
  | nil => intro p; cases p; rfl
  | cons i q ih =>
      intro p
      cases p with
      | mk d cs =>
          show getAt (Prim.mk (hideStep M F d) (hide_matching_primsList M F cs))
              (i :: q) = _
          simp only [getAt, getPrim, getChild_hideList]
          cases hc : getChild cs i with
          | none => rfl
          | some c => simpa [getAt] using ih c

theorem pendAfter_hideStep (c : String) (a b : Bool) (M : List String)
    (F : Option PrimType) (d : PrimData) :
    pendAfter c a b (hideStep M F d) = pendAfter c a b d := by
  simp [pendAfter, hideStep_name, hideStep_ty]

theorem pendAfter_ownVisit (c c2 : String) (a b a2 b2 : Bool) (d : PrimData) :
    pendAfter c a b (ownVisit c2 a2 b2 d) = pendAfter c a b d := by
  simp [pendAfter, ownVisit_name, ownVisit_ty]

theorem getAt_mmp (c : String) (q : List Nat) :
    ∀ (a b : Bool) (p : Prim),
      getAt (modifyMeshPass c a b p) q =
        (getAt p q).map
          (fun d => ownVisit c (pendAlong c a b p q).1 (pendAlong c a b p q).2 d) := by
  induction q with
  | nil => intro a b p; cases p; rfl
  | cons i q ih =>
      intro a b p
      cases p with
      | mk d cs =>
          show getAt (Prim.mk (ownVisit c a b d)
              (modifyMeshPassList c (pendAfter c a b d).1 (pendAfter c a b d).2 cs))
              (i :: q) = _
          simp only [getAt, getPrim, getChild_mmpList, pendAlong]
          cases hc : getChild cs i with
          | none => rfl
          | some ch => simpa [getAt] using ih (pendAfter c a b d).1 (pendAfter c a b d).2 ch

theorem pendAlong_hide (c : String) (M : List String) (F : Option PrimType)
    (q : List Nat) :
    ∀ (a b : Bool) (p : Prim),
      pendAlong c a b (hide_matching_prims M F p) q = pendAlong c a b p q := by
  induction q with
  | nil => intro a b p; cases p <;> rfl
  | cons i q ih =>
      intro a b p
      cases p with
      | mk d cs =>
          show pendAlong c a b
              (Prim.mk (hideStep M F d) (hide_matching_primsList M F cs)) (i :: q) = _
          simp only [pendAlong, getChild_hideList, pendAfter_hideStep]
          cases hc : getChild cs i with
          | none => rfl
          | some ch => simpa using ih _ _ ch

theorem pendAlong_mmp (c c0 : String) (q : List Nat) :
    ∀ (a b a0 b0 : Bool) (p : Prim),
      pendAlong c a b (modifyMeshPass c0 a0 b0 p) q = pendAlong c a b p q := by
  induction q with
  | nil => intro a b a0 b0 p; cases p <;> rfl
  | cons i q ih =>
      intro a b a0 b0 p
      cases p with
      | mk d cs =>
          show pendAlong c a b
              (Prim.mk (ownVisit c0 a0 b0 d)
                (modifyMeshPassList c0 (pendAfter c0 a0 b0 d).1
                  (pendAfter c0 a0 b0 d).2 cs)) (i :: q) = _
          simp only [pendAlong, getChild_mmpList, pendAfter_ownVisit]
          cases hc : getChild cs i with
          | none => rfl
          | some ch => simpa using ih _ _ _ _ ch

theorem pendAlong_modify (c c2 : String) (h : Bool) (p : Prim) (q : List Nat)
    (a b : Bool) :
    pendAlong c a b (modify_environment c2 h p) q = pendAlong c a b p q := by
  unfold modify_environment
  cases h <;> simp [pendAlong_mmp, pendAlong_hide]

/-- The master description of `modify_environment`: the prim found at a path
of the output is exactly the prim found there in the input, transformed by the
per-prim effect at the pending-collider flags accumulated along the path. -/
theorem getAt_modify (c : String) (h : Bool) (p : Prim) (q : List Nat) :
    getAt (modify_environment c h p) q =
      (getAt p q).map
        (modifyEffect c h (pendAlong c false false p q).1
          (pendAlong c false false p q).2) := by
  unfold modify_environment
  cases h with
  | false =>
      simp only [Bool.false_eq_true, if_false, getAt_mmp, getAt_hide,
        pendAlong_hide, Option.map_map]
      cases getAt p q <;> simp [modifyEffect]
  | true =>
      simp only [if_true, getAt_mmp, getAt_hide, pendAlong_hide, Option.map_map]
      cases getAt p q <;> simp [modifyEffect]

theorem resolveApprox_beq_tri (c : String) (nm : String)
    (hc : (c == "triangleMesh") = false) :
    (resolveApprox c nm == "triangleMesh") = matchesAny fine_collider_types nm := by
  unfold resolveApprox
  by_cases hF : matchesAny fine_collider_types nm = true <;> simp_all

theorem pendAlong_fst (c : String) (hc : (c == "triangleMesh") = false)
    (q : List Nat) :
    ∀ (a b : Bool) (p : Prim),
      (pendAlong c a b p q).1 = (a || ancestorHasFineMesh p q) := by
  induction q with
  | nil => intro a b p; cases p <;> simp [pendAlong, ancestorHasFineMesh]
  | cons i q ih =>
      intro a b p
      cases p with
      | mk d cs =>
          simp only [pendAlong, ancestorHasFineMesh]
          cases hch : getChild cs i with
          | none => simp
          | some ch =>
              simp only [ih]
              unfold pendAfter
              by_cases hm : isMesh d.ty = true <;>
                simp_all [resolveApprox_beq_tri c _ hc, Bool.or_assoc]

theorem modifyEffect_physx_pos (c : String) (h a b : Bool) (d : PrimData)
    (hm : isMesh d.ty = true) (hf : matchesAny fine_collider_types d.name = true) :
    0 < (modifyEffect c h a b d).physxTriMeshAPICount := by
  rw [modifyEffect_eq]
  simp [hm, resolveApprox, hf, applyAPI_pos]

theorem modifyEffect_physx_tri (c : String) (h a b : Bool) (d : PrimData)
    (hm : isMesh d.ty = true) (hc : c = "triangleMesh") :
    0 < (modifyEffect c h a b d).physxTriMeshAPICount := by
  rw [modifyEffect_eq]
  have : (resolveApprox c d.name == "triangleMesh") = true := by
    unfold resolveApprox
    by_cases hF : matchesAny fine_collider_types d.name = true <;> simp_all
  simp [hm, this, applyAPI_pos]

theorem modifyEffect_approx (c : String) (h a b : Bool) (d : PrimData)
    (hm : isMesh d.ty = true) (hf : matchesAny fine_collider_types d.name = false)
    (hc : (c == "triangleMesh") = false) :
    (modifyEffect c h a b d).approximation = some c := by
  rw [modifyEffect_eq]
  simp [hm, resolveApprox_beq_tri c _ hc, hf]

theorem modifyEffect_physx_unchanged (c : String) (h b : Bool) (d : PrimData)
    (hf : matchesAny fine_collider_types d.name = false)
    (hc : (c == "triangleMesh") = false) :
    (modifyEffect c h false b d).physxTriMeshAPICount = d.physxTriMeshAPICount := by
  rw [modifyEffect_eq]
  simp [resolveApprox_beq_tri c _ hc, hf]

theorem modifyEffect_visibility (c : String) (h a b : Bool) (d : PrimData) :
    (modifyEffect c h a b d).visibility =
      (if h && matchesAny ["_exterior", "_ceiling"] d.name then "invisible"
       else if matchesAny ["001_SPLIT_GLA"] d.name &&
           tyFilterOk (some PrimType.Xform) d.ty then "invisible"
       else d.visibility) := by
  rw [modifyEffect_eq]

/-! ## The claims -/

/-- C1: one `modify_environment` pass never alters a node's transform
attributes — every node present before the pass is still present after it with
the same `translate`, `rotateXYZ`, `scale` and `orient` values (and the same
name and type); the pass only touches capability markers and visibility. -/
theorem mutation_preserves_transform_attributes (c : String) (h : Bool) (p : Prim)
    (q : List Nat) (d : PrimData) (hd : getAt p q = some d) :
    ∃ d', getAt (modify_environment c h p) q = some d' ∧
      d'.translate = d.translate ∧ d'.rotateXYZ = d.rotateXYZ ∧
      d'.scale = d.scale ∧ d'.orient = d.orient ∧
      d'.name = d.name ∧ d'.ty = d.ty := by
  refine ⟨modifyEffect c h (pendAlong c false false p q).1
      (pendAlong c false false p q).2 d, ?_, ?_, ?_, ?_, ?_, ?_, ?_⟩
  · rw [getAt_modify, hd]; rfl
  · exact modifyEffect_translate _ _ _ _ _
  · exact modifyEffect_rotateXYZ _ _ _ _ _
  · exact modifyEffect_scale _ _ _ _ _
  · exact modifyEffect_orient _ _ _ _ _
  · exact modifyEffect_name _ _ _ _ _
  · exact modifyEffect_ty _ _ _ _ _

/-- C1 witness: the chair mesh of `envTreeA` keeps its transform attributes. -/
theorem mutation_preserves_transform_attributes_witness :
    ∃ d', getAt (modify_environment "convexHull" true envTreeA) [0] = some d' ∧
      d'.translate = chairData.translate ∧ d'.rotateXYZ = chairData.rotateXYZ ∧
      d'.scale = chairData.scale ∧ d'.orient = chairData.orient ∧
      d'.name = chairData.name ∧ d'.ty = chairData.ty :=
  mutation_preserves_transform_attributes "convexHull" true envTreeA [0] chairData rfl

/-- C2: a mesh node whose name contains a fine-collider marker ends the pass
with the engine-specific precise triangle-mesh collision marker applied,
whatever coarse approximation the caller supplied. -/
theorem fine_collider_marker_forces_triangle_mesh (c : String) (h : Bool) (p : Prim)
    (q : List Nat) (d : PrimData) (hd : getAt p q = some d)
    (hm : isMesh d.ty = true) (hf : matchesAny fine_collider_types d.name = true) :
    ∃ d', getAt (modify_environment c h p) q = some d' ∧
      0 < d'.physxTriMeshAPICount :=
  ⟨modifyEffect c h (pendAlong c false false p q).1
      (pendAlong c false false p q).2 d,
   by rw [getAt_modify, hd]; rfl,
   modifyEffect_physx_pos c h _ _ d hm hf⟩

/-- C2 witness: the skirting mesh of `envTreeB` gets the precise marker even
with the coarse default `boundingSphere`. -/
theorem fine_collider_marker_forces_triangle_mesh_witness :
    ∃ d', getAt (modify_environment "boundingSphere" true envTreeB) [0] = some d' ∧
      0 < d'.physxTriMeshAPICount :=
  fine_collider_marker_forces_triangle_mesh "boundingSphere" true envTreeB [0]
    (basePrimData "skirt_12" PrimType.Mesh) rfl rfl (by decide)

/-- C3 counterexample: `cube_A` is a mesh without a fine-collider marker, yet
after one pass with coarse default `convexHull` the precise triangle-mesh
marker has been applied to it (0 before, 1 after), because it lies in the
subtree of the fine-named mesh `skirt_box` whose `add_colliders` call walks
its whole subtree. -/
theorem nested_mesh_receives_precise_marker :
    matchesAny fine_collider_types "cube_A" = false ∧
    (getAt nestedFineTree [0]).map PrimData.name = some "cube_A" ∧
    (getAt nestedFineTree [0]).map PrimData.ty = some PrimType.Mesh ∧
    (getAt nestedFineTree [0]).map PrimData.physxTriMeshAPICount = some 0 ∧
    (getAt (modify_environment "convexHull" true nestedFineTree) [0]).map
        PrimData.physxTriMeshAPICount = some 1 := by decide

/-- C3 (amended): for a mesh node without a fine-collider marker, one pass
with coarse default `S` sets its mesh-approximation marker to `S` when
`S ≠ triangleMesh`, and applies the precise PhysX marker instead when
`S = triangleMesh`; when `S ≠ triangleMesh` the precise marker is left
unchanged *provided no enclosing mesh on the node's path has a fine-collider
name* — a node nested under a fine-named mesh additionally receives the
precise marker. -/
theorem coarse_mesh_resolved_approximation (c : String) (h : Bool) (p : Prim)
    (q : List Nat) (d : PrimData) (hd : getAt p q = some d)
    (hm : isMesh d.ty = true) (hf : matchesAny fine_collider_types d.name = false) :
    ∃ d', getAt (modify_environment c h p) q = some d' ∧
      ((c == "triangleMesh") = false → d'.approximation = some c) ∧
      (c = "triangleMesh" → 0 < d'.physxTriMeshAPICount) ∧
      ((c == "triangleMesh") = false → ancestorHasFineMesh p q = false →
        d'.physxTriMeshAPICount = d.physxTriMeshAPICount) := by
  refine ⟨modifyEffect c h (pendAlong c false false p q).1
      (pendAlong c false false p q).2 d, ?_, ?_, ?_, ?_⟩
  · rw [getAt_modify, hd]; rfl
  · intro hc; exact modifyEffect_approx c h _ _ d hm hf hc
  · intro hc; exact modifyEffect_physx_tri c h _ _ d hm hc
  · intro hc hanc
    have h1 : (pendAlong c false false p q).1 = false := by
      rw [pendAlong_fst c hc]; simp [hanc]
    rw [h1]
    exact modifyEffect_physx_unchanged c h _ d hf hc

/-- C3 witness: the plain mesh `cube_B` of `envTreeC` (no fine-named mesh
above it) resolves to the caller default `convexHull` and its precise marker
stays at 0. -/
theorem coarse_mesh_resolved_approximation_witness :
    ∃ d', getAt (modify_environment "convexHull" true envTreeC) [0] = some d' ∧
      (("convexHull" == "triangleMesh") = false → d'.approximation = some "convexHull") ∧
      ("convexHull" = "triangleMesh" → 0 < d'.physxTriMeshAPICount) ∧
      (("convexHull" == "triangleMesh") = false →
        ancestorHasFineMesh envTreeC [0] = false →
        d'.physxTriMeshAPICount =
          (basePrimData "cube_B" PrimType.Mesh).physxTriMeshAPICount) :=
  coarse_mesh_resolved_approximation "convexHull" true envTreeC [0]
    (basePrimData "cube_B" PrimType.Mesh) rfl rfl (by decide)

/-- C4: evaluation at the failing input.  The two snapshots agree except for a
translate difference of `5e-7`, well inside the documented `1e-6` tolerance,
yet `transforms_are_equal` reports them different (its `hasattr` dispatch
degenerates to exact record equality for the dict records it is given) and
`verify_positions_unchanged` counts one change and returns false. -/
theorem verify_detects_subtolerance_change :
    (|tdAfter.translate.x - tdBefore.translate.x| < 1 / 1000000 ∧
      tdAfter.rotation = tdBefore.rotation ∧ tdAfter.scale = tdBefore.scale ∧
      tdAfter.orient = tdBefore.orient) ∧
    transforms_are_equal tdBefore tdAfter (1 / 1000000) = false ∧
    (verifyCounts snapBefore snapAfter).1 = 1 ∧
    verify_positions_unchanged snapBefore snapAfter = false := by
  have hne : ¬(tdBefore = tdAfter) := by
    simp only [tdBefore, tdAfter, TransformData.mk.injEq, Vec3.mk.injEq]
    norm_num
  have hte : ∀ tol : ℚ, transforms_are_equal tdBefore tdAfter tol = false := by
    intro tol
    simp only [transforms_are_equal, decide_eq_false_iff_not]
    exact hne
  have hvc : (verifyCounts snapBefore snapAfter).1 = 1 := by
    simp [verifyCounts, snapBefore, snapAfter, lookupTD, hte]
  refine ⟨⟨?_, ?_, ?_, ?_⟩, hte _, hvc, ?_⟩
  · rw [show tdAfter.translate.x - tdBefore.translate.x = 1 / 2000000 from by
      norm_num [tdAfter, tdBefore]]
    rw [abs_of_pos (by norm_num)]
    norm_num
  · rfl
  · rfl
  · rfl
  · simp [verify_positions_unchanged, hvc]

/-- C5: running `modify_environment` twice in succession is idempotent — the
second run changes no node at all: no capability marker is applied again (all
applications are `HasAPI`-guarded, the rigid-body attacher is
idempotent-additive), attribute writes repeat the same values, and no further
visibility change happens. -/
theorem mutation_pass_idempotent (c : String) (h : Bool) (p : Prim) (q : List Nat) :
    getAt (modify_environment c h (modify_environment c h p)) q =
      getAt (modify_environment c h p) q := by
  rw [getAt_modify c h (modify_environment c h p) q, pendAlong_modify,
    getAt_modify c h p q, Option.map_map]
  cases getAt p q with
  | none => rfl
  | some d => simp [Function.comp, modifyEffect_idem]

/-- C6 counterexample: with a missing input file the process does exit with
status 1, but the engine launch (`SimulationApp`, executed at import time,
line 27) happens *before* that exit: engine resources are already allocated
when the path check fails. -/
theorem engine_launch_precedes_missing_file_exit :
    Event.launchSimApp ∈ eventsBeforeExit (script_trace false false false) ∧
    Event.exitProcess 1 ∈ script_trace false false false := by decide

/-- C6 (amended): when the scene-file path does not exist the process exits
with status 1 and never attempts a scene-import call; the engine app launch,
however, has already happened at import time, before the path check. -/
theorem missing_file_exits_without_import (lf vb : Bool) :
    script_trace false lf vb =
      [Event.parseArgs, Event.launchSimApp, Event.printUsingPath,
       Event.fileCheckFailed, Event.exitProcess 1] ∧
    Event.loadEnvCall ∉ script_trace false lf vb ∧
    Event.exitProcess 1 ∈ script_trace false lf vb := by
  refine ⟨rfl, ?_, ?_⟩ <;> simp [script_trace]

/-- C7: whatever the verifier reports, `setup_infinigen_scene` proceeds past
the verification step to the "setup complete" print and the metrics-assembler
scale fixup: the trace after the `verifyRun` event is a fixed suffix,
independent of the verification outcome, and setup never exits. -/
theorem setup_always_reaches_complete (lf vb : Bool) :
    setup_infinigen_scene_trace lf vb =
      setupPrefixTrace lf ++
        [Event.verifyRun vb, Event.printSetupComplete, Event.resolveScaleStep,
         Event.printAllComplete] ∧
    (∀ n : Nat, Event.exitProcess n ∉ setup_infinigen_scene_trace lf vb) ∧
    Event.printSetupComplete ∈ setup_infinigen_scene_trace lf vb ∧
    Event.resolveScaleStep ∈ setup_infinigen_scene_trace lf vb := by
  refine ⟨?_, ?_, ?_, ?_⟩
  · cases lf <;> rfl
  · intro n; cases lf <;> simp [setup_infinigen_scene_trace]
  · cases lf <;> simp [setup_infinigen_scene_trace]
  · cases lf <;> simp [setup_infinigen_scene_trace]

/-- C8: a scene-import failure is caught and logged; setup continues through
default-prim setup, both snapshots, mutation and verification; the load is
attempted exactly once (no retry) and the process does not exit. -/
theorem load_failure_logged_and_setup_continues (vb : Bool) :
    List.count Event.loadEnvCall (setup_infinigen_scene_trace true vb) = 1 ∧
    Event.logLoadError ∈ setup_infinigen_scene_trace true vb ∧
    Event.setDefaultPrimStep ∈ setup_infinigen_scene_trace true vb ∧
    Event.captureInitial ∈ setup_infinigen_scene_trace true vb ∧
    Event.modifyEnvStep ∈ setup_infinigen_scene_trace true vb ∧
    Event.captureFinal ∈ setup_infinigen_scene_trace true vb ∧
    Event.verifyRun vb ∈ setup_infinigen_scene_trace true vb ∧
    (∀ n : Nat, Event.exitProcess n ∉ setup_infinigen_scene_trace true vb) := by
  refine ⟨?_, ?_, ?_, ?_, ?_, ?_, ?_, ?_⟩
  · cases vb <;> rfl
  · simp [setup_infinigen_scene_trace]
  · simp [setup_infinigen_scene_trace]
  · simp [setup_infinigen_scene_trace]
  · simp [setup_infinigen_scene_trace]
  · simp [setup_infinigen_scene_trace]
  · simp [setup_infinigen_scene_trace]
  · intro n; simp [setup_infinigen_scene_trace]

/-- C9 counterexample: a *mesh* whose name contains the lighting-obstruction
marker `001_SPLIT_GLA` is not hidden by the pass — the lighting fix only
targets `Xform`-typed prims (the calls pass the `"Xform"` kind filter), so its
visibility stays `inherited` even with the hide-walls flag set. -/
theorem light_marker_mesh_not_hidden :
    strContains "001_SPLIT_GLA_m" "001_SPLIT_GLA" = true ∧
    (getAt lightMeshTree []).map PrimData.visibility = some "inherited" ∧
    (getAt (modify_environment "convexHull" true lightMeshTree) []).map
        PrimData.visibility = some "inherited" := by decide

/-- C9 (amended): an `Xform`-typed node whose name contains the
lighting-obstruction marker is forced invisible regardless of the hide-walls
flag (the lighting fix passes an `"Xform"` kind filter, so nodes of other
types are untouched by it); a node whose name contains `_exterior` or
`_ceiling` is forced invisible when the flag is true, and when the flag is
false its visibility is unchanged unless it is an `Xform` matching the
lighting marker; hiding never removes a node from the graph. -/
theorem hide_pass_visibility_behavior (c : String) (hw : Bool) (p : Prim)
    (q : List Nat) (d : PrimData) (hd : getAt p q = some d) :
    ∃ d', getAt (modify_environment c hw p) q = some d' ∧
      (matchesAny ["001_SPLIT_GLA"] d.name = true → d.ty = PrimType.Xform →
        d'.visibility = "invisible") ∧
      (hw = true → matchesAny ["_exterior", "_ceiling"] d.name = true →
        d'.visibility = "invisible") ∧
      (hw = false →
        (matchesAny ["001_SPLIT_GLA"] d.name &&
          tyFilterOk (some PrimType.Xform) d.ty) = false →
        d'.visibility = d.visibility) ∧
      d'.name = d.name ∧ d'.ty = d.ty := by
  refine ⟨modifyEffect c hw (pendAlong c false false p q).1
      (pendAlong c false false p q).2 d, ?_, ?_, ?_, ?_,
      modifyEffect_name _ _ _ _ _, modifyEffect_ty _ _ _ _ _⟩
  · rw [getAt_modify, hd]; rfl
  · intro hL hX
    rw [modifyEffect_visibility]
    simp [hL, hX, tyFilterOk]
  · intro hwt hW
    rw [modifyEffect_visibility]
    simp [hwt, hW]
  · intro hwf hG
    rw [modifyEffect_visibility]
    simp [hwf, hG]

/-- C9 witness: with hide-walls true, the exterior-wall node of
`exteriorTree` ends invisible; the other clauses hold vacuously or by the
visibility characterization. -/
theorem hide_pass_visibility_behavior_witness :
    ∃ d', getAt (modify_environment "convexHull" true exteriorTree) [0] = some d' ∧
      (matchesAny ["001_SPLIT_GLA"] (basePrimData "north_exterior" PrimType.Xform).name = true →
        (basePrimData "north_exterior" PrimType.Xform).ty = PrimType.Xform →
        d'.visibility = "invisible") ∧
      (true = true →
        matchesAny ["_exterior", "_ceiling"]
          (basePrimData "north_exterior" PrimType.Xform).name = true →
        d'.visibility = "invisible") ∧
      (true = false →
        (matchesAny ["001_SPLIT_GLA"] (basePrimData "north_exterior" PrimType.Xform).name &&
          tyFilterOk (some PrimType.Xform)
            (basePrimData "north_exterior" PrimType.Xform).ty) = false →
        d'.visibility = (basePrimData "north_exterior" PrimType.Xform).visibility) ∧
      d'.name = (basePrimData "north_exterior" PrimType.Xform).name ∧
      d'.ty = (basePrimData "north_exterior" PrimType.Xform).ty :=
  hide_pass_visibility_behavior "convexHull" true exteriorTree [0]
    (basePrimData "north_exterior" PrimType.Xform) rfl

/-- C10: when no valid prim exists at the root path, `capture_transforms`
returns the empty mapping, and `verify_positions_unchanged` over two such
empty snapshots checks zero paths and succeeds vacuously — an invalid subtree
root is never reported as a verification failure. -/
theorem invalid_root_captures_nothing_and_verifies (stage : Prim) (root : List Nat)
    (hroot : getPrim stage root = none) :
    capture_transforms stage root = [] ∧
    verify_positions_unchanged (capture_transforms stage root)
        (capture_transforms stage root) = true ∧
    (verifyCounts (capture_transforms stage root)
        (capture_transforms stage root)).2 = 0 := by
  have hc : capture_transforms stage root = [] := by
    unfold capture_transforms
    rw [hroot]
  exact ⟨hc, by rw [hc]; rfl, by rw [hc]; rfl⟩

/-- C10 witness: path `[3]` addresses nothing in the one-prim stage. -/
theorem invalid_root_captures_nothing_and_verifies_witness :
    capture_transforms leafStage [3] = [] ∧
    verify_positions_unchanged (capture_transforms leafStage [3])
        (capture_transforms leafStage [3]) = true ∧
    (verifyCounts (capture_transforms leafStage [3])
        (capture_transforms leafStage [3])).2 = 0 :=
  invalid_root_captures_nothing_and_verifies leafStage [3] rfl
